import Mathlib

/-!
Shallow embedding of the capture-and-correlation core of `tools/sslsniff.py`:
the three BPF capture handlers (`probe_SSL_write`, `probe_SSL_read_enter`,
`probe_SSL_read_exit`) and the Python consumer (`print_event`).

Modelling conventions:
- Machine integers are `Nat` (u32/u64 values) or `Int` (the signed return
  value read by `PT_REGS_RC`); truncation to u32 is explicit (`% 2 ^ 32`).
- The per-CPU scratch slot (`data_map`, a one-element per-CPU array whose
  lookup at index 0 always succeeds) and the `bufs` hash are the mutable
  BPF state, threaded explicitly through each handler.
- `bpf_probe_read_user` is modelled by an environment function
  `mem : Nat → Nat → Option (List Nat)` (source address, size ↦ bytes read,
  or `none` on fault).  Per the documented helper semantics, on fault the
  destination is zero-filled and no user bytes are copied.
- Each handler returns the new state, the event it submitted on its perf
  channel (if any), and the number of user-space bytes actually copied.
-/

namespace Sslsniff

/-- Constant `TASK_COMM_LEN` from linux/sched.h, as set in sslsniff.py. -/
def TASK_COMM_LEN : Nat := 16

/-- Constant `MAX_BUF_SIZE = 1024 * 8` from sslsniff.py. -/
def MAX_BUF_SIZE : Nat := 8192

/-- The sentinel length `4294967295` (`0xFFFFFFFF`) checked in both probes. -/
def U32_SENTINEL : Nat := 4294967295

/-- Layout `struct probe_SSL_data_t`: the event record layout.  The payload `v0`
is a byte array of size `MAX_BUF_SIZE`, modelled as a function from index
to byte value. -/
structure ProbeSSLData where
  timestamp_ns : Nat
  pid : Nat
  comm : String
  v0 : Nat → Nat
  len : Nat

/-- The BPF-resident mutable state: the single scratch slot of the
per-CPU array `data_map`, and the `bufs` hash from thread id to the saved
buffer pointer. -/
structure BpfState where
  data_map : ProbeSSLData
  bufs : Nat → Option Nat

/-- The kernel-provided environment of one probe invocation:
`bpf_get_current_pid_tgid`, `bpf_ktime_get_ns`, `bpf_get_current_comm`,
and `bpf_probe_read_user` (as `mem`). -/
structure ProbeCtx where
  pid_tgid : Nat
  ktime_ns : Nat
  comm : String
  mem : Nat → Nat → Option (List Nat)

/-- Computes `pid = pid_tgid >> 32`. -/
def pidOf (pid_tgid : Nat) : Nat := pid_tgid / 2 ^ 32

/-- Computes `tid = (u32)pid_tgid`. -/
def tidOf (pid_tgid : Nat) : Nat := pid_tgid % 2 ^ 32

/-- The `FILTER` text: with `-p PID` it becomes
`if (pid != PID) { return 0; }`; without it, it is empty. -/
def pidFiltered (filt : Option Nat) (pid : Nat) : Bool :=
  match filt with
  | some p => pid != p
  | none => false

/-- Result of one handler invocation: the new BPF state, the record
submitted by `perf_submit` (if any), and the number of payload bytes
actually copied from user memory. -/
structure ProbeResult where
  st : BpfState
  emitted : Option ProbeSSLData
  copied : Nat

/-- The ternary `u32 size = ( len > MAX_BUF_SIZE - 1 ) ? (MAX_BUF_SIZE-1) : len;`. -/
def copySize (len : Nat) : Nat :=
  if len > MAX_BUF_SIZE - 1 then MAX_BUF_SIZE - 1 else len

/-- Overwrite the first `size` bytes of the payload with the bytes read
from user memory. -/
def writeBytes (v0 : Nat → Nat) (bs : List Nat) (size : Nat) : Nat → Nat :=
  fun i => if i < size then bs.getD i 0 else v0 i

/-- On a `bpf_probe_read_user` fault the destination range is zero-filled
(documented helper semantics) and no user bytes are copied. -/
def zeroFill (v0 : Nat → Nat) (size : Nat) : Nat → Nat :=
  fun i => if i < size then 0 else v0 i

/-- Assignment `v0[idx] = val`. -/
def setByte (v0 : Nat → Nat) (idx val : Nat) : Nat → Nat :=
  fun i => if i = idx then val else v0 i

/-- Effect of `bpf_probe_read_user(&v0, size, src)` on the payload. -/
def doCopy (v0 : Nat → Nat) (memRes : Option (List Nat)) (size : Nat) : Nat → Nat :=
  match memRes with
  | some bs => writeBytes v0 bs size
  | none => zeroFill v0 size

/-- Number of user bytes actually copied by `bpf_probe_read_user`:
`size` on success, 0 on fault. -/
def copiedOf (memRes : Option (List Nat)) (size : Nat) : Nat :=
  match memRes with
  | some _ => size
  | none => 0

/-- Handler `int probe_SSL_write(struct pt_regs *ctx, void *ssl, void *buf, u32 num)`.
Attached (uprobe) to SSL_write / gnutls_record_send / PR_Write / PR_Send. -/
def probe_SSL_write (filt : Option Nat) (ctx : ProbeCtx) (buf num : Nat)
    (st : BpfState) : ProbeResult :=
  let pid := pidOf ctx.pid_tgid
  if pidFiltered filt pid then ⟨st, none, 0⟩ else
  -- data_map.lookup(&zero) on the 1-element per-CPU array yields the slot
  let d1 := { st.data_map with timestamp_ns := ctx.ktime_ns, pid := pid, len := num }
  if num == U32_SENTINEL then ⟨{ st with data_map := d1 }, none, 0⟩ else
  let size := copySize num
  let d2 := { d1 with comm := ctx.comm }
  let v0' := if buf ≠ 0 then doCopy d2.v0 (ctx.mem buf size) size else d2.v0
  let cp := if buf ≠ 0 then copiedOf (ctx.mem buf size) size else 0
  let d3 := { d2 with v0 := setByte v0' size 0 }
  ⟨{ st with data_map := d3 }, some d3, cp⟩

/-- Handler `int probe_SSL_read_enter(struct pt_regs *ctx, void *ssl, void *buf, int num)`.
Attached (uprobe) to SSL_read / gnutls_record_recv / PR_Read / PR_Recv:
`bufs.update(&tid, (u64*)&buf)`. -/
def probe_SSL_read_enter (filt : Option Nat) (ctx : ProbeCtx) (buf : Nat)
    (st : BpfState) : ProbeResult :=
  let pid := pidOf ctx.pid_tgid
  let tid := tidOf ctx.pid_tgid
  if pidFiltered filt pid then ⟨st, none, 0⟩ else
  ⟨{ st with bufs := fun t => if t = tid then some buf else st.bufs t }, none, 0⟩

/-- Value `PT_REGS_RC(ctx)` stored into the u32 field `len`. -/
def u32OfRet (ret : Int) : Nat := (ret % (2 ^ 32 : Int)).toNat

/-- Handler `int probe_SSL_read_exit(struct pt_regs *ctx, void *ssl, void *buf, int num)`.
Attached (uretprobe); `buf` is the register-derived argument of the exit
invocation, never used by the body (the saved entry pointer `*bufp` is used
instead).  `ret` is the traced call's return value. -/
def probe_SSL_read_exit (filt : Option Nat) (ctx : ProbeCtx) (buf : Nat)
    (ret : Int) (st : BpfState) : ProbeResult :=
  let pid := pidOf ctx.pid_tgid
  let tid := tidOf ctx.pid_tgid
  if pidFiltered filt pid then ⟨st, none, 0⟩ else
  match st.bufs tid with
  | none => ⟨st, none, 0⟩
  | some bufp =>
    let d1 := { st.data_map with timestamp_ns := ctx.ktime_ns, pid := pid, len := u32OfRet ret }
    if d1.len == U32_SENTINEL then ⟨{ st with data_map := d1 }, none, 0⟩ else
    let d2 := { d1 with comm := ctx.comm }
    let size := copySize d2.len
    -- the `if (bufp != 0)` guard tests the map-value pointer, non-null here
    let v0' := doCopy d2.v0 (ctx.mem bufp size) size
    let cp := copiedOf (ctx.mem bufp size) size
    let d3 := { d2 with v0 := setByte v0' size 0 }
    ⟨⟨d3, fun t => if t = tid then none else st.bufs t⟩, some d3, cp⟩

/-- The consumer's process-wide mutable state: the `start` baseline
timestamp, initially 0. -/
structure ConsumerState where
  start : Nat

/-- One rendered output block of `print_event`.  `lost = some k` stands
for the `END DATA (TRUNCATED, k bytes lost)` marker, `lost = none` for the
plain `END DATA` marker. -/
structure Rendered where
  rw : String
  time_delta_ns : Int
  comm : String
  pid : Nat
  len : Nat
  lost : Option Nat

/-- The command filter `if args.comm: if not args.comm == event.comm...:
return`: the event passes when no filter is set, or when the filter string
equals the event's command. -/
def commPass (comm_filt : Option String) (comm : String) : Bool :=
  match comm_filt with
  | some c => c == comm
  | none => true

/-- Computes `truncated_bytes = event.len - MAX_BUF_SIZE` in Python int arithmetic;
the truncated end marker (with the lost-byte count) is rendered iff
`truncated_bytes > 0`. -/
def lostOf (len : Nat) : Option Nat :=
  if 0 < (len : Int) - (MAX_BUF_SIZE : Int) then
    some ((len : Int) - (MAX_BUF_SIZE : Int)).toNat
  else none

/-- Consumer `print_event(cpu, data, size, rw, evt)`: command filter, lazy baseline
seeding, relative time, truncation arithmetic, then one printed block.
Returns the new consumer state and the rendered block (`none` when the
event is dropped by the command filter). -/
def print_event (comm_filt : Option String) (st : ConsumerState)
    (e : ProbeSSLData) (rw : String) : ConsumerState × Option Rendered :=
  if commPass comm_filt e.comm then
    let start' := if st.start == 0 then e.timestamp_ns else st.start
    (⟨start'⟩, some ⟨rw, (e.timestamp_ns : Int) - (start' : Int), e.comm, e.pid, e.len, lostOf e.len⟩)
  else (st, none)

/-- The consumer loop restricted to one channel: process a list of decoded
events in arrival order, threading the consumer state, collecting the
rendered blocks. -/
def consumeAll (comm_filt : Option String) (rw : String) :
    ConsumerState → List ProbeSSLData → ConsumerState × List Rendered
  | st, [] => (st, [])
  | st, e :: es =>
    let step := print_event comm_filt st e rw
    let rest := consumeAll comm_filt rw step.1 es
    (rest.1, match step.2 with
             | none => rest.2
             | some r => r :: rest.2)

/-! ### Concrete fixtures used by witnesses and counterexamples -/

/-- A probe environment: pid 7, tid 3, timestamp 1000 ns, command `curl`,
user memory that always yields the bytes of `hello`. -/
def ctx0 : ProbeCtx := ⟨7 * 2 ^ 32 + 3, 1000, "curl", fun _ _ => some [104, 101, 108, 108, 111]⟩

/-- A probe environment whose every user-memory read faults. -/
def ctxF : ProbeCtx := ⟨7 * 2 ^ 32 + 3, 1000, "curl", fun _ _ => none⟩

/-- A scratch slot whose payload bytes are all 55 (stale content from a
previous capture). -/
def d0 : ProbeSSLData := ⟨0, 0, "", fun _ => 55, 0⟩

/-- Initial BPF state: stale slot, empty correlation table. -/
def st0 : BpfState := ⟨d0, fun _ => none⟩

/-- BPF state with a pending read entry for tid 3 at buffer pointer 100. -/
def stA : BpfState := ⟨d0, fun t => if t = 3 then some 100 else none⟩

/-- A decoded event of length 9000 (Scenario D shape). -/
def eD : ProbeSSLData := ⟨1000, 7, "curl", fun _ => 0, 9000⟩

/-- A decoded event from a command that a `curl` filter rejects. -/
def eX : ProbeSSLData := ⟨500, 9, "wget", fun _ => 0, 3⟩

/-! ### Helper lemmas: path characterizations of the handlers -/

/-- The C ternary `( len > MAX_BUF_SIZE - 1 ) ? (MAX_BUF_SIZE-1) : len`
is the minimum of `len` and `MAX_BUF_SIZE - 1`. -/
theorem copySize_eq_min (len : Nat) : copySize len = min len (MAX_BUF_SIZE - 1) := by
  unfold copySize MAX_BUF_SIZE
  split <;> omega

/-- The record submitted by `probe_SSL_write` on its emitting path. -/
def writeEmitted (ctx : ProbeCtx) (buf num : Nat) (st : BpfState) : ProbeSSLData :=
  ⟨ctx.ktime_ns, pidOf ctx.pid_tgid, ctx.comm,
   setByte (if buf ≠ 0 then doCopy st.data_map.v0 (ctx.mem buf (copySize num)) (copySize num)
            else st.data_map.v0) (copySize num) 0,
   num⟩

/-- Characterization of `probe_SSL_write` when the pid filter passes and
the requested length is not the sentinel: the event is emitted. -/
theorem probe_SSL_write_emit (filt : Option Nat) (ctx : ProbeCtx) (buf num : Nat)
    (st : BpfState) (hf : pidFiltered filt (pidOf ctx.pid_tgid) = false)
    (hnum : num ≠ U32_SENTINEL) :
    probe_SSL_write filt ctx buf num st =
      ⟨⟨writeEmitted ctx buf num st, st.bufs⟩, some (writeEmitted ctx buf num st),
       if buf ≠ 0 then copiedOf (ctx.mem buf (copySize num)) (copySize num) else 0⟩ := by
  unfold probe_SSL_write writeEmitted
  simp [hf, hnum]

/-- Handler `probe_SSL_write` with the sentinel requested length emits nothing. -/
theorem probe_SSL_write_sentinel (filt : Option Nat) (ctx : ProbeCtx) (buf : Nat)
    (st : BpfState) :
    (probe_SSL_write filt ctx buf U32_SENTINEL st).emitted = none := by
  unfold probe_SSL_write
  cases hpf : pidFiltered filt (pidOf ctx.pid_tgid) <;> simp [hpf]

/-- Characterization of `probe_SSL_read_enter` when the pid filter passes:
the correlation entry for the current tid is upserted. -/
theorem probe_SSL_read_enter_eq (filt : Option Nat) (ctx : ProbeCtx) (buf : Nat)
    (st : BpfState) (hf : pidFiltered filt (pidOf ctx.pid_tgid) = false) :
    probe_SSL_read_enter filt ctx buf st =
      ⟨⟨st.data_map, fun t => if t = tidOf ctx.pid_tgid then some buf else st.bufs t⟩,
       none, 0⟩ := by
  unfold probe_SSL_read_enter
  simp [hf]

/-- Handler `probe_SSL_read_exit` with no pending entry for the current tid is a
no-op. -/
theorem probe_SSL_read_exit_nopending (filt : Option Nat) (ctx : ProbeCtx)
    (buf : Nat) (ret : Int) (st : BpfState)
    (hf : pidFiltered filt (pidOf ctx.pid_tgid) = false)
    (hb : st.bufs (tidOf ctx.pid_tgid) = none) :
    probe_SSL_read_exit filt ctx buf ret st = ⟨st, none, 0⟩ := by
  unfold probe_SSL_read_exit
  simp [hf, hb]

/-- Handler `probe_SSL_read_exit` on a pending entry with the sentinel return
value: no event, and the `bufs` table is left untouched (the `delete`
is only reached on the emitting path). -/
theorem probe_SSL_read_exit_sentinel (filt : Option Nat) (ctx : ProbeCtx)
    (buf : Nat) (ret : Int) (st : BpfState) (bufp : Nat)
    (hf : pidFiltered filt (pidOf ctx.pid_tgid) = false)
    (hb : st.bufs (tidOf ctx.pid_tgid) = some bufp)
    (hret : u32OfRet ret = U32_SENTINEL) :
    probe_SSL_read_exit filt ctx buf ret st =
      ⟨⟨{ st.data_map with timestamp_ns := ctx.ktime_ns, pid := pidOf ctx.pid_tgid, len := u32OfRet ret }, st.bufs⟩, none, 0⟩ := by
  unfold probe_SSL_read_exit
  simp [hf, hb, hret]

/-- The record submitted by `probe_SSL_read_exit` on its emitting path. -/
def readEmitted (ctx : ProbeCtx) (bufp len : Nat) (st : BpfState) : ProbeSSLData :=
  ⟨ctx.ktime_ns, pidOf ctx.pid_tgid, ctx.comm,
   setByte (doCopy st.data_map.v0 (ctx.mem bufp (copySize len)) (copySize len)) (copySize len) 0,
   len⟩

/-- Characterization of `probe_SSL_read_exit` when the pid filter passes,
a pending entry exists, and the return value is not the sentinel: the
payload is copied from the saved pointer, the entry is deleted, the event
is emitted. -/
theorem probe_SSL_read_exit_emit (filt : Option Nat) (ctx : ProbeCtx) (buf : Nat)
    (ret : Int) (st : BpfState) (bufp : Nat)
    (hf : pidFiltered filt (pidOf ctx.pid_tgid) = false)
    (hb : st.bufs (tidOf ctx.pid_tgid) = some bufp)
    (hret : u32OfRet ret ≠ U32_SENTINEL) :
    probe_SSL_read_exit filt ctx buf ret st =
      ⟨⟨readEmitted ctx bufp (u32OfRet ret) st,
        fun t => if t = tidOf ctx.pid_tgid then none else st.bufs t⟩,
       some (readEmitted ctx bufp (u32OfRet ret) st),
       copiedOf (ctx.mem bufp (copySize (u32OfRet ret))) (copySize (u32OfRet ret))⟩ := by
  unfold probe_SSL_read_exit readEmitted
  simp [hf, hb, hret]

/-- The terminator byte: every emitted payload is zero at the index it was
terminated at. -/
theorem setByte_at (v0 : Nat → Nat) (idx val : Nat) : setByte v0 idx val idx = val := by
  unfold setByte
  simp

/-- Lemma: `setByte` leaves other indices unchanged. -/
theorem setByte_ne (v0 : Nat → Nat) (idx val i : Nat) (h : i ≠ idx) :
    setByte v0 idx val i = v0 i := by
  unfold setByte
  simp [h]

/-- Characterization of `print_event` when the command filter passes. -/
theorem print_event_pass (comm_filt : Option String) (st : ConsumerState)
    (e : ProbeSSLData) (rw : String) (h : commPass comm_filt e.comm = true) :
    print_event comm_filt st e rw =
      (⟨if st.start == 0 then e.timestamp_ns else st.start⟩,
       some ⟨rw,
             (e.timestamp_ns : Int) -
               ((if st.start == 0 then e.timestamp_ns else st.start : Nat) : Int),
             e.comm, e.pid, e.len, lostOf e.len⟩) := by
  unfold print_event
  simp [h]

/-- Characterization of `print_event` when the command filter rejects the
event: dropped, consumer state (including the baseline) untouched. -/
theorem print_event_drop (comm_filt : Option String) (st : ConsumerState)
    (e : ProbeSSLData) (rw : String) (h : commPass comm_filt e.comm = false) :
    print_event comm_filt st e rw = (st, none) := by
  unfold print_event
  simp [h]

/-- Once the baseline is non-zero, `print_event` leaves the consumer
state unchanged. -/
theorem print_event_start_stable (comm_filt : Option String) (st : ConsumerState)
    (e : ProbeSSLData) (rw : String) (h : st.start ≠ 0) :
    (print_event comm_filt st e rw).1 = st := by
  obtain ⟨s⟩ := st
  have h' : s ≠ 0 := h
  cases hc : commPass comm_filt e.comm with
  | false => rw [print_event_drop comm_filt ⟨s⟩ e rw hc]
  | true =>
    rw [print_event_pass comm_filt ⟨s⟩ e rw hc]
    simp [h']

/-- Once the baseline is non-zero, the consumer loop never changes it. -/
theorem consumeAll_start_stable (comm_filt : Option String) (rw : String)
    (es : List ProbeSSLData) (st : ConsumerState) (h : st.start ≠ 0) :
    (consumeAll comm_filt rw st es).1 = st := by
  induction es generalizing st with
  | nil => rfl
  | cons e es ih =>
    unfold consumeAll
    dsimp only
    rw [print_event_start_stable comm_filt st e rw h]
    exact ih st h

/-- The number of rendered blocks equals the number of events surviving
the command filter, whatever the incoming consumer state. -/
theorem consumeAll_length (comm_filt : Option String) (rw : String)
    (es : List ProbeSSLData) (st : ConsumerState) :
    (consumeAll comm_filt rw st es).2.length =
      (es.filter fun e => commPass comm_filt e.comm).length := by
  induction es generalizing st with
  | nil => rfl
  | cons e es ih =>
    unfold consumeAll
    dsimp only
    cases hc : commPass comm_filt e.comm with
    | false =>
      rw [print_event_drop comm_filt st e rw hc]
      simp only [List.filter_cons, hc]
      exact ih _
    | true =>
      rw [print_event_pass comm_filt st e rw hc]
      simp only [List.filter_cons, hc, List.length_cons]
      simp [ih]

/-- Lemma: `lostOf` yields the lost-byte count exactly when the length exceeds
the capacity. -/
theorem lostOf_pos (len : Nat) (h : MAX_BUF_SIZE < len) :
    lostOf len = some (len - MAX_BUF_SIZE) := by
  unfold MAX_BUF_SIZE at h
  unfold lostOf MAX_BUF_SIZE
  rw [if_pos (by omega)]
  refine congrArg some ?_
  omega

/-- Lemma: `lostOf` yields no marker when the length is within capacity. -/
theorem lostOf_none (len : Nat) (h : len ≤ MAX_BUF_SIZE) :
    lostOf len = none := by
  unfold MAX_BUF_SIZE at h
  unfold lostOf MAX_BUF_SIZE
  rw [if_neg (by omega)]

/-! ### Claim theorems -/

/-- Claim C3: if the reported length equals the sentinel `0xFFFFFFFF` —
the requested length in `probe_SSL_write`, or the u32 view of the return
value in `probe_SSL_read_exit` — no event is emitted for that call. -/
theorem C3_sentinel_no_event (filt : Option Nat) (ctx : ProbeCtx)
    (buf buf2 : Nat) (st : BpfState) :
    (probe_SSL_write filt ctx buf U32_SENTINEL st).emitted = none ∧
    (∀ ret : Int, u32OfRet ret = U32_SENTINEL →
      (probe_SSL_read_exit filt ctx buf2 ret st).emitted = none) := by
  refine ⟨probe_SSL_write_sentinel filt ctx buf st, fun ret hret => ?_⟩
  cases hpf : pidFiltered filt (pidOf ctx.pid_tgid) with
  | true =>
    unfold probe_SSL_read_exit
    simp [hpf]
  | false =>
    cases hb : st.bufs (tidOf ctx.pid_tgid) with
    | none => rw [probe_SSL_read_exit_nopending filt ctx buf2 ret st hpf hb]
    | some bufp => rw [probe_SSL_read_exit_sentinel filt ctx buf2 ret st bufp hpf hb hret]

/-- Claim C3 witness: a write call with sentinel length and a read exit
returning -1 both emit nothing. -/
theorem C3_witness :
    (probe_SSL_write none ctx0 7 U32_SENTINEL stA).emitted = none ∧
    (probe_SSL_read_exit none ctx0 9 (-1) stA).emitted = none := by
  refine ⟨(C3_sentinel_no_event none ctx0 7 9 stA).1, ?_⟩
  exact (C3_sentinel_no_event none ctx0 7 9 stA).2 (-1) (by decide)

/-- Claim C4: a rendered event with `len > MAX_BUF_SIZE` carries a
truncation marker reporting exactly `len - MAX_BUF_SIZE` lost bytes; with
`len ≤ MAX_BUF_SIZE` the plain end marker is rendered. -/
theorem C4_truncation_marker (comm_filt : Option String) (st : ConsumerState)
    (e : ProbeSSLData) (rw : String) (r : Rendered)
    (h : (print_event comm_filt st e rw).2 = some r) :
    (MAX_BUF_SIZE < e.len → r.lost = some (e.len - MAX_BUF_SIZE)) ∧
    (e.len ≤ MAX_BUF_SIZE → r.lost = none) := by
  cases hc : commPass comm_filt e.comm with
  | false =>
    rw [print_event_drop comm_filt st e rw hc] at h
    simp at h
  | true =>
    rw [print_event_pass comm_filt st e rw hc] at h
    simp only [Option.some.injEq] at h
    subst h
    exact ⟨fun hl => lostOf_pos e.len hl, fun hl => lostOf_none e.len hl⟩

/-- The rendered block for the Scenario D event. -/
def rD : Rendered := ⟨"W", 0, "curl", 7, 9000, some 808⟩

/-- Claim C4 witness: a 9000-byte event renders a truncation marker
reporting 808 lost bytes (Scenario D). -/
theorem C4_witness :
    MAX_BUF_SIZE < eD.len ∧ (print_event none ⟨0⟩ eD ("W")).2 = some rD ∧
    rD.lost = some (eD.len - MAX_BUF_SIZE) := by
  refine ⟨by decide, rfl, ?_⟩
  exact (C4_truncation_marker none ⟨0⟩ eD ("W") rD rfl).1 (by decide)

/-- Claim C6: `probe_SSL_read_enter` upserts the entry for the current
thread identity — afterwards the table maps that tid to the new buffer
pointer (any previous entry is overwritten, never queued), all other tids
are untouched, and no event is emitted. -/
theorem C6_last_write_wins (filt : Option Nat) (ctx : ProbeCtx) (buf : Nat)
    (st : BpfState) (hf : pidFiltered filt (pidOf ctx.pid_tgid) = false) :
    (probe_SSL_read_enter filt ctx buf st).st.bufs (tidOf ctx.pid_tgid) = some buf ∧
    (∀ t, t ≠ tidOf ctx.pid_tgid →
      (probe_SSL_read_enter filt ctx buf st).st.bufs t = st.bufs t) ∧
    (probe_SSL_read_enter filt ctx buf st).emitted = none := by
  rw [probe_SSL_read_enter_eq filt ctx buf st hf]
  exact ⟨by simp, fun t ht => by simp [ht], rfl⟩

/-- Claim C6 witness: tid 3 already holds pointer 100; a second Read Entry
with pointer 200 replaces it, leaving other tids untouched. -/
theorem C6_witness :
    stA.bufs 3 = some 100 ∧
    (probe_SSL_read_enter none ctx0 200 stA).st.bufs (tidOf ctx0.pid_tgid) = some 200 ∧
    (probe_SSL_read_enter none ctx0 200 stA).st.bufs 5 = stA.bufs 5 := by
  have h := C6_last_write_wins none ctx0 200 stA (by decide)
  exact ⟨by decide, h.1, h.2.1 5 (by decide)⟩

/-- Starting from the zero baseline, the consumer's final baseline is the
timestamp of the first event that survives the command filter (0 when no
event survives), provided event timestamps are positive. -/
theorem consumeAll_first_baseline (comm_filt : Option String) (rw : String)
    (events : List ProbeSSLData) (hts : ∀ e ∈ events, 0 < e.timestamp_ns) :
    (consumeAll comm_filt rw ⟨0⟩ events).1.start =
      (((events.filter fun e => commPass comm_filt e.comm).head?.map
          ProbeSSLData.timestamp_ns).getD 0) := by
  induction events with
  | nil => rfl
  | cons e es ih =>
    unfold consumeAll
    dsimp only
    cases hc : commPass comm_filt e.comm with
    | false =>
      rw [print_event_drop comm_filt ⟨0⟩ e rw hc]
      simp only [List.filter_cons, hc]
      exact ih fun x hx => hts x (List.mem_cons_of_mem e hx)
    | true =>
      rw [print_event_pass comm_filt ⟨0⟩ e rw hc]
      have hpos : e.timestamp_ns ≠ 0 :=
        Nat.pos_iff_ne_zero.mp (hts e (List.mem_cons_self e es))
      have hstable :
          (consumeAll comm_filt rw
            ⟨if ((⟨0⟩ : ConsumerState).start == 0) = true then e.timestamp_ns
              else (⟨0⟩ : ConsumerState).start⟩ es).1 = ⟨e.timestamp_ns⟩ := by
        have := consumeAll_start_stable comm_filt rw es ⟨e.timestamp_ns⟩ hpos
        simpa using this
      rw [hstable]
      simp [List.filter_cons, hc]

/-- Claim C7: with a command filter configured, a non-matching event is
dropped before rendering and before it can touch the baseline; starting
from the unset baseline, the baseline ends up seeded by the first event
surviving the filter, and exactly the surviving events are rendered. -/
theorem C7_filter_before_baseline (c rw : String) (events : List ProbeSSLData)
    (hts : ∀ e ∈ events, 0 < e.timestamp_ns) :
    (∀ (st : ConsumerState) (e : ProbeSSLData), (c == e.comm) = false →
      print_event (some c) st e rw = (st, none)) ∧
    (consumeAll (some c) rw ⟨0⟩ events).1.start =
      (((events.filter fun e => commPass (some c) e.comm).head?.map
          ProbeSSLData.timestamp_ns).getD 0) ∧
    (consumeAll (some c) rw ⟨0⟩ events).2.length =
      (events.filter fun e => commPass (some c) e.comm).length := by
  refine ⟨fun st e h => print_event_drop (some c) st e rw h, ?_, ?_⟩
  · exact consumeAll_first_baseline (some c) rw events hts
  · exact consumeAll_length (some c) rw events ⟨0⟩

/-- Claim C7 witness: with filter `curl`, the `wget` event is dropped and
does not seed the baseline; the baseline is seeded by the later `curl`
event's timestamp 1000, and exactly one block is rendered. -/
theorem C7_witness :
    print_event (some ("curl")) ⟨0⟩ eX ("W") = (⟨0⟩, none) ∧
    (consumeAll (some ("curl")) "W" ⟨0⟩ [eX, eD]).1.start = 1000 ∧
    (consumeAll (some ("curl")) "W" ⟨0⟩ [eX, eD]).2.length = 1 := by
  have hts : ∀ e ∈ [eX, eD], 0 < e.timestamp_ns := by
    intro e he
    rcases List.mem_cons.mp he with h1 | he2
    · rw [h1]; decide
    · rcases List.mem_cons.mp he2 with h2 | h3
      · rw [h2]; decide
      · exact absurd h3 (List.not_mem_nil e)
  have h := C7_filter_before_baseline ("curl") ("W") [eX, eD] hts
  refine ⟨h.1 ⟨0⟩ eX (by decide), ?_, ?_⟩
  · rw [h.2.1]; rfl
  · rw [h.2.2]; rfl

/-- Claim C1 counterexample: `probe_SSL_write` with a null buffer pointer
and requested length 5 emits an event, yet copies 0 payload bytes, not
`min(5, MAX_BUF_SIZE - 1) = 5`. -/
theorem C1_counterexample :
    (probe_SSL_write none ctx0 0 5 st0).emitted.isSome = true ∧
    (probe_SSL_write none ctx0 0 5 st0).copied = 0 ∧
    min 5 (MAX_BUF_SIZE - 1) ≠ 0 := by
  refine ⟨by decide, by decide, by decide⟩

/-- Claim C1 (amended): for every emitted event the payload is
zero-terminated at offset `min(length, MAX_BUF_SIZE - 1)`; the number of
payload bytes actually copied equals `min(length, MAX_BUF_SIZE - 1)` when
the buffer pointer is non-null (for writes) and the user-space copy
succeeds, and equals 0 when the write buffer pointer is null or the copy
faults. -/
theorem C1_payload_invariant_amended (filt : Option Nat) (ctx : ProbeCtx)
    (buf num : Nat) (ret : Int) (st : BpfState) (e e2 : ProbeSSLData) :
    ((probe_SSL_write filt ctx buf num st).emitted = some e →
      e.len = num ∧
      e.v0 (min e.len (MAX_BUF_SIZE - 1)) = 0 ∧
      (buf = 0 → (probe_SSL_write filt ctx buf num st).copied = 0) ∧
      (buf ≠ 0 → (ctx.mem buf (min num (MAX_BUF_SIZE - 1))).isSome = true →
        (probe_SSL_write filt ctx buf num st).copied = min num (MAX_BUF_SIZE - 1)) ∧
      (buf ≠ 0 → ctx.mem buf (min num (MAX_BUF_SIZE - 1)) = none →
        (probe_SSL_write filt ctx buf num st).copied = 0)) ∧
    ((probe_SSL_read_exit filt ctx buf ret st).emitted = some e2 →
      e2.len = u32OfRet ret ∧
      e2.v0 (min e2.len (MAX_BUF_SIZE - 1)) = 0 ∧
      (∀ bufp, st.bufs (tidOf ctx.pid_tgid) = some bufp →
        ((ctx.mem bufp (min (u32OfRet ret) (MAX_BUF_SIZE - 1))).isSome = true →
          (probe_SSL_read_exit filt ctx buf ret st).copied =
            min (u32OfRet ret) (MAX_BUF_SIZE - 1)) ∧
        (ctx.mem bufp (min (u32OfRet ret) (MAX_BUF_SIZE - 1)) = none →
          (probe_SSL_read_exit filt ctx buf ret st).copied = 0))) := by
  constructor
  · intro he
    cases hpf : pidFiltered filt (pidOf ctx.pid_tgid) with
    | true =>
      unfold probe_SSL_write at he
      simp [hpf] at he
    | false =>
      by_cases hnum : num = U32_SENTINEL
      · subst hnum
        rw [probe_SSL_write_sentinel filt ctx buf st] at he
        exact Option.noConfusion he
      · rw [probe_SSL_write_emit filt ctx buf num st hpf hnum] at he
        simp only [Option.some.injEq] at he
        subst he
        rw [probe_SSL_write_emit filt ctx buf num st hpf hnum]
        dsimp only [writeEmitted]
        rw [← copySize_eq_min num]
        refine ⟨rfl, ?_, ?_, ?_, ?_⟩
        · exact setByte_at _ _ _
        · intro hbuf
          simp [hbuf]
        · intro hbuf hsome
          rw [if_pos hbuf]
          cases hm : ctx.mem buf (copySize num) with
          | none => rw [hm] at hsome; simp at hsome
          | some bs => rfl
        · intro hbuf hnone
          rw [if_pos hbuf, hnone]
          rfl
  · intro he
    cases hpf : pidFiltered filt (pidOf ctx.pid_tgid) with
    | true =>
      unfold probe_SSL_read_exit at he
      simp [hpf] at he
    | false =>
      cases hb : st.bufs (tidOf ctx.pid_tgid) with
      | none =>
        rw [probe_SSL_read_exit_nopending filt ctx buf ret st hpf hb] at he
        exact Option.noConfusion he
      | some bufp0 =>
        by_cases hret : u32OfRet ret = U32_SENTINEL
        · rw [probe_SSL_read_exit_sentinel filt ctx buf ret st bufp0 hpf hb hret] at he
          exact Option.noConfusion he
        · rw [probe_SSL_read_exit_emit filt ctx buf ret st bufp0 hpf hb hret] at he
          simp only [Option.some.injEq] at he
          subst he
          rw [probe_SSL_read_exit_emit filt ctx buf ret st bufp0 hpf hb hret]
          dsimp only [readEmitted]
          rw [← copySize_eq_min (u32OfRet ret)]
          refine ⟨rfl, setByte_at _ _ _, ?_⟩
          intro bufp hb2
          have hbp : bufp0 = bufp := Option.some.inj hb2
          subst hbp
          constructor
          · intro hsome
            cases hm : ctx.mem bufp0 (copySize (u32OfRet ret)) with
            | none => rw [hm] at hsome; simp at hsome
            | some bs => rfl
          · intro hnone
            rw [hnone]
            rfl

/-- The record `probe_SSL_write` emits for the C1 witness run. -/
def eW : ProbeSSLData :=
  ⟨1000, 7, "curl", setByte (writeBytes d0.v0 [104, 101, 108, 108, 111] 5) 5 0, 5⟩

/-- Claim C1 witness: a write of 5 bytes from a valid buffer emits a
record with 5 bytes copied and the terminator at offset 5. -/
theorem C1_witness :
    (probe_SSL_write none ctx0 1 5 st0).emitted = some eW ∧
    eW.v0 (min eW.len (MAX_BUF_SIZE - 1)) = 0 ∧
    (probe_SSL_write none ctx0 1 5 st0).copied = min 5 (MAX_BUF_SIZE - 1) := by
  have he : (probe_SSL_write none ctx0 1 5 st0).emitted = some eW := rfl
  have h := (C1_payload_invariant_amended none ctx0 1 5 0 st0 eW eW).1 he
  exact ⟨he, h.2.1, h.2.2.2.1 (by decide) (by decide)⟩

/-- Claim C2 counterexample: tid 3 has a pending entry, the read exit
returns -1 (sentinel): the handler aborts with no event, but the entry is
NOT removed from the table — the `delete` sits after the sentinel check. -/
theorem C2_counterexample :
    stA.bufs (tidOf ctx0.pid_tgid) = some 100 ∧
    (probe_SSL_read_exit none ctx0 9 (-1) stA).emitted = none ∧
    (probe_SSL_read_exit none ctx0 9 (-1) stA).st.bufs (tidOf ctx0.pid_tgid) = some 100 := by
  exact ⟨by decide, rfl, by decide⟩

/-- Claim C2 (amended): with no pending entry the handler aborts with no
event; with a pending entry, the entry is removed exactly when the
handler reaches emission (non-sentinel return) — on a sentinel return the
handler aborts with no event and the entry stays armed in the table. -/
theorem C2_pending_consumed_amended (filt : Option Nat) (ctx : ProbeCtx)
    (buf : Nat) (ret : Int) (st : BpfState)
    (hf : pidFiltered filt (pidOf ctx.pid_tgid) = false) :
    (st.bufs (tidOf ctx.pid_tgid) = none →
      probe_SSL_read_exit filt ctx buf ret st = ⟨st, none, 0⟩) ∧
    (∀ bufp, st.bufs (tidOf ctx.pid_tgid) = some bufp →
      u32OfRet ret = U32_SENTINEL →
      (probe_SSL_read_exit filt ctx buf ret st).emitted = none ∧
      (probe_SSL_read_exit filt ctx buf ret st).st.bufs (tidOf ctx.pid_tgid) = some bufp) ∧
    (∀ bufp, st.bufs (tidOf ctx.pid_tgid) = some bufp →
      u32OfRet ret ≠ U32_SENTINEL →
      (probe_SSL_read_exit filt ctx buf ret st).st.bufs (tidOf ctx.pid_tgid) = none ∧
      (probe_SSL_read_exit filt ctx buf ret st).emitted.isSome = true) := by
  refine ⟨fun hb => probe_SSL_read_exit_nopending filt ctx buf ret st hf hb, ?_, ?_⟩
  · intro bufp hb hret
    rw [probe_SSL_read_exit_sentinel filt ctx buf ret st bufp hf hb hret]
    exact ⟨rfl, hb⟩
  · intro bufp hb hret
    rw [probe_SSL_read_exit_emit filt ctx buf ret st bufp hf hb hret]
    exact ⟨by simp, rfl⟩

/-- Claim C2 witness: on a non-sentinel return the entry is consumed and
an event emitted; on the sentinel return nothing is emitted and the
entry survives. -/
theorem C2_witness :
    stA.bufs (tidOf ctx0.pid_tgid) = some 100 ∧
    (probe_SSL_read_exit none ctx0 9 10 stA).st.bufs (tidOf ctx0.pid_tgid) = none ∧
    (probe_SSL_read_exit none ctx0 9 10 stA).emitted.isSome = true ∧
    (probe_SSL_read_exit none ctx0 9 (-1) stA).emitted = none ∧
    (probe_SSL_read_exit none ctx0 9 (-1) stA).st.bufs (tidOf ctx0.pid_tgid) = some 100 := by
  have h3 := (C2_pending_consumed_amended none ctx0 9 10 stA (by decide)).2.2 100
    (by decide) (by decide)
  have h2 := (C2_pending_consumed_amended none ctx0 9 (-1) stA (by decide)).2.1 100
    (by decide) (by decide)
  exact ⟨by decide, h3.1, h3.2, h2.1, h2.2⟩

/-- Claim C5 counterexample: the copy from user space faults (the memory
environment returns `none`), yet the write capture is not aborted — an
event is still emitted. -/
theorem C5_counterexample :
    ctxF.mem 1 (copySize 5) = none ∧
    (probe_SSL_write none ctxF 1 5 st0).emitted.isSome = true := by
  exact ⟨rfl, by decide⟩

/-- Claim C5 (amended): a faulting copy never perturbs the traced call,
but it does not abort the capture either: the handler ignores the
helper's error and still emits the event, with zero bytes copied and the
copied range zero-filled. -/
theorem C5_copy_fault_amended (filt : Option Nat) (ctx : ProbeCtx)
    (buf num : Nat) (ret : Int) (st : BpfState)
    (hf : pidFiltered filt (pidOf ctx.pid_tgid) = false) :
    (num ≠ U32_SENTINEL → buf ≠ 0 → ctx.mem buf (copySize num) = none →
      (probe_SSL_write filt ctx buf num st).emitted.isSome = true ∧
      (probe_SSL_write filt ctx buf num st).copied = 0 ∧
      (∀ e, (probe_SSL_write filt ctx buf num st).emitted = some e →
        ∀ i, i < copySize num → e.v0 i = 0)) ∧
    (∀ bufp, st.bufs (tidOf ctx.pid_tgid) = some bufp →
      u32OfRet ret ≠ U32_SENTINEL →
      ctx.mem bufp (copySize (u32OfRet ret)) = none →
      (probe_SSL_read_exit filt ctx buf ret st).emitted.isSome = true ∧
      (probe_SSL_read_exit filt ctx buf ret st).copied = 0 ∧
      (∀ e, (probe_SSL_read_exit filt ctx buf ret st).emitted = some e →
        ∀ i, i < copySize (u32OfRet ret) → e.v0 i = 0)) := by
  constructor
  · intro hnum hbuf hmem
    rw [probe_SSL_write_emit filt ctx buf num st hf hnum]
    dsimp only [writeEmitted]
    refine ⟨rfl, ?_, ?_⟩
    · rw [if_pos hbuf, hmem]
      rfl
    · intro e he i hi
      have hee := Option.some.inj he
      subst hee
      dsimp only
      rw [setByte_ne _ _ _ i (Nat.ne_of_lt hi)]
      rw [if_pos hbuf, hmem]
      simp only [doCopy]
      unfold zeroFill
      rw [if_pos hi]
  · intro bufp hb hret hmem
    rw [probe_SSL_read_exit_emit filt ctx buf ret st bufp hf hb hret]
    dsimp only [readEmitted]
    refine ⟨rfl, ?_, ?_⟩
    · rw [hmem]
      rfl
    · intro e he i hi
      have hee := Option.some.inj he
      subst hee
      dsimp only
      rw [setByte_ne _ _ _ i (Nat.ne_of_lt hi)]
      rw [hmem]
      simp only [doCopy]
      unfold zeroFill
      rw [if_pos hi]

/-- Claim C5 witness: with a faulting memory environment, both the write
capture and the read-exit capture still emit, copying zero bytes. -/
theorem C5_witness :
    (probe_SSL_write none ctxF 1 5 st0).emitted.isSome = true ∧
    (probe_SSL_write none ctxF 1 5 st0).copied = 0 ∧
    (probe_SSL_read_exit none ctxF 9 10 stA).emitted.isSome = true ∧
    (probe_SSL_read_exit none ctxF 9 10 stA).copied = 0 := by
  have hw := (C5_copy_fault_amended none ctxF 1 5 10 st0 (by decide)).1
    (by decide) (by decide) rfl
  have hr := (C5_copy_fault_amended none ctxF 1 5 10 stA (by decide)).2 100
    (by decide) (by decide) rfl
  exact ⟨hw.1, hw.2.1, hr.1, hr.2.1⟩

/-- Claim C8: the result of `probe_SSL_read_exit` is independent of the
exit invocation's own buffer argument, and the emitted payload's first
`min(actualLength, MAX_BUF_SIZE - 1)` bytes are read from the pointer
saved in the correlation table at Read Entry. -/
theorem C8_copy_from_saved_pointer (filt : Option Nat) (ctx : ProbeCtx)
    (buf1 buf2 : Nat) (ret : Int) (st : BpfState) :
    probe_SSL_read_exit filt ctx buf1 ret st = probe_SSL_read_exit filt ctx buf2 ret st ∧
    (∀ e bufp bs, st.bufs (tidOf ctx.pid_tgid) = some bufp →
      (probe_SSL_read_exit filt ctx buf1 ret st).emitted = some e →
      ctx.mem bufp (min (u32OfRet ret) (MAX_BUF_SIZE - 1)) = some bs →
      (∀ i, i < min (u32OfRet ret) (MAX_BUF_SIZE - 1) → e.v0 i = bs.getD i 0) ∧
      (probe_SSL_read_exit filt ctx buf1 ret st).copied =
        min (u32OfRet ret) (MAX_BUF_SIZE - 1)) := by
  refine ⟨rfl, ?_⟩
  intro e bufp bs hb he hm
  cases hpf : pidFiltered filt (pidOf ctx.pid_tgid) with
  | true =>
    unfold probe_SSL_read_exit at he
    simp [hpf] at he
  | false =>
    by_cases hret : u32OfRet ret = U32_SENTINEL
    · rw [probe_SSL_read_exit_sentinel filt ctx buf1 ret st bufp hpf hb hret] at he
      exact Option.noConfusion he
    · rw [probe_SSL_read_exit_emit filt ctx buf1 ret st bufp hpf hb hret] at he
      rw [probe_SSL_read_exit_emit filt ctx buf1 ret st bufp hpf hb hret]
      rw [← copySize_eq_min (u32OfRet ret)] at hm ⊢
      have hee := Option.some.inj he
      subst hee
      dsimp only [readEmitted]
      constructor
      · intro i hi
        rw [setByte_ne _ _ _ i (Nat.ne_of_lt hi)]
        rw [hm]
        simp only [doCopy]
        unfold writeBytes
        rw [if_pos hi]
      · rw [hm]
        rfl

/-- The record `probe_SSL_read_exit` emits for the C8 witness run:
2 bytes copied from the saved pointer. -/
def eR : ProbeSSLData :=
  ⟨1000, 7, "curl", setByte (writeBytes d0.v0 [104, 101, 108, 108, 111] 2) 2 0, 2⟩

/-- Claim C8 witness: a read exit returning 2 emits a record whose bytes
come from the saved entry pointer, independent of the exit's own buffer
argument. -/
theorem C8_witness :
    probe_SSL_read_exit none ctx0 111 2 stA = probe_SSL_read_exit none ctx0 222 2 stA ∧
    (probe_SSL_read_exit none ctx0 111 2 stA).emitted = some eR ∧
    eR.v0 0 = [104, 101, 108, 108, 111].getD 0 0 ∧
    (probe_SSL_read_exit none ctx0 111 2 stA).copied =
      min (u32OfRet 2) (MAX_BUF_SIZE - 1) := by
  have he : (probe_SSL_read_exit none ctx0 111 2 stA).emitted = some eR := rfl
  have h := C8_copy_from_saved_pointer none ctx0 111 222 2 stA
  have h2 := h.2 eR 100 [104, 101, 108, 108, 111] (by decide) he rfl
  exact ⟨h.1, he, h2.1 0 (by decide), h2.2⟩

/-- Claim C9: a write capture with a null buffer pointer and non-sentinel
length still emits an event: zero bytes are copied, only the terminator
at offset `min(num, MAX_BUF_SIZE - 1)` is written, and every payload byte
below that offset keeps the stale content of the reused scratch slot. -/
theorem C9_null_buffer_stale_payload (filt : Option Nat) (ctx : ProbeCtx)
    (num : Nat) (st : BpfState)
    (hf : pidFiltered filt (pidOf ctx.pid_tgid) = false)
    (hnum : num ≠ U32_SENTINEL) :
    (probe_SSL_write filt ctx 0 num st).emitted.isSome = true ∧
    (probe_SSL_write filt ctx 0 num st).copied = 0 ∧
    (∀ e, (probe_SSL_write filt ctx 0 num st).emitted = some e →
      e.v0 (min num (MAX_BUF_SIZE - 1)) = 0 ∧
      ∀ i, i < min num (MAX_BUF_SIZE - 1) → e.v0 i = st.data_map.v0 i) := by
  rw [probe_SSL_write_emit filt ctx 0 num st hf hnum]
  dsimp only [writeEmitted]
  rw [← copySize_eq_min num]
  refine ⟨rfl, by rw [if_neg (fun h => h rfl)], ?_⟩
  intro e he
  have hee := Option.some.inj he
  subst hee
  dsimp only
  constructor
  · exact setByte_at _ _ _
  · intro i hi
    rw [setByte_ne _ _ _ i (Nat.ne_of_lt hi)]
    rw [if_neg (fun h => h rfl)]

/-- The record `probe_SSL_write` emits for the C9 witness run: no copy,
only the terminator written into the stale slot. -/
def eW0 : ProbeSSLData := ⟨1000, 7, "curl", setByte d0.v0 5 0, 5⟩

/-- Claim C9 witness: a null-buffer write of length 5 emits a record
whose byte 0 is the slot's stale byte 55, zero-terminated at offset 5. -/
theorem C9_witness :
    (probe_SSL_write none ctx0 0 5 st0).emitted = some eW0 ∧
    (probe_SSL_write none ctx0 0 5 st0).copied = 0 ∧
    eW0.v0 (min 5 (MAX_BUF_SIZE - 1)) = 0 ∧
    eW0.v0 0 = st0.data_map.v0 0 := by
  have he : (probe_SSL_write none ctx0 0 5 st0).emitted = some eW0 := rfl
  have h := C9_null_buffer_stale_payload none ctx0 5 st0 (by decide) (by decide)
  exact ⟨he, h.2.1, (h.2.2 eW0 he).1, (h.2.2 eW0 he).2 0 (by decide)⟩

/-- A negative return value other than -1 (int range) reinterpreted as
u32 is a large non-sentinel length above the capacity. -/
theorem u32OfRet_neg (ret : Int) (hlo : -2147483648 ≤ ret) (hhi : ret < -1) :
    u32OfRet ret = (4294967296 + ret).toNat ∧
    MAX_BUF_SIZE < u32OfRet ret ∧ u32OfRet ret ≠ U32_SENTINEL := by
  unfold u32OfRet MAX_BUF_SIZE U32_SENTINEL
  have h32 : (2 : Int) ^ 32 = 4294967296 := by norm_num
  rw [h32]
  omega

/-- Claim C10: only the exact u32 value 4294967295 is the sentinel; any
other negative return (int range) becomes a huge unsigned length, so the
read exit emits an event with `MAX_BUF_SIZE - 1` bytes copied from the
saved buffer and the consumer renders a truncation marker for it. -/
theorem C10_negative_ret_reinterpreted (filt : Option Nat) (ctx : ProbeCtx)
    (buf : Nat) (ret : Int) (st : BpfState) (bufp : Nat) (bs : List Nat) (rw : String)
    (hf : pidFiltered filt (pidOf ctx.pid_tgid) = false)
    (hb : st.bufs (tidOf ctx.pid_tgid) = some bufp)
    (hlo : -2147483648 ≤ ret) (hhi : ret < -1)
    (hmem : ctx.mem bufp (MAX_BUF_SIZE - 1) = some bs) :
    (probe_SSL_read_exit filt ctx buf ret st).emitted.isSome = true ∧
    (probe_SSL_read_exit filt ctx buf ret st).copied = MAX_BUF_SIZE - 1 ∧
    (∀ e, (probe_SSL_read_exit filt ctx buf ret st).emitted = some e →
      e.len = (4294967296 + ret).toNat ∧
      MAX_BUF_SIZE < e.len ∧
      min e.len (MAX_BUF_SIZE - 1) = MAX_BUF_SIZE - 1 ∧
      ∀ cs : ConsumerState,
        ((print_event none cs e rw).2.map Rendered.lost) =
          some (some (e.len - MAX_BUF_SIZE))) := by
  obtain ⟨hu, hlen, hsent⟩ := u32OfRet_neg ret hlo hhi
  have hsize : copySize (u32OfRet ret) = MAX_BUF_SIZE - 1 := by
    rw [copySize_eq_min]
    unfold MAX_BUF_SIZE at hlen ⊢
    omega
  rw [probe_SSL_read_exit_emit filt ctx buf ret st bufp hf hb hsent]
  dsimp only [readEmitted]
  rw [hsize, hmem]
  refine ⟨rfl, rfl, ?_⟩
  intro e he
  have hee := Option.some.inj he
  subst hee
  dsimp only
  refine ⟨hu, hlen, ?_, ?_⟩
  · rw [← copySize_eq_min]
    exact hsize
  · intro cs
    rw [print_event_pass none cs _ rw rfl]
    dsimp only
    rw [lostOf_pos _ hlen]
    rfl

/-- The record `probe_SSL_read_exit` emits for the C10 witness run:
return -2 becomes length 4294967294, 8191 bytes copied. -/
def eN : ProbeSSLData :=
  ⟨1000, 7, "curl",
   setByte (writeBytes d0.v0 [104, 101, 108, 108, 111] 8191) 8191 0, 4294967294⟩

/-- Claim C10 witness: a read exit returning -2 emits a record of length
4294967294 with 8191 bytes copied, and the consumer renders a truncation
marker reporting 4294959102 lost bytes. -/
theorem C10_witness :
    (probe_SSL_read_exit none ctx0 9 (-2) stA).emitted = some eN ∧
    (probe_SSL_read_exit none ctx0 9 (-2) stA).copied = MAX_BUF_SIZE - 1 ∧
    eN.len = (4294967296 + (-2 : Int)).toNat ∧
    MAX_BUF_SIZE < eN.len ∧
    ((print_event none ⟨0⟩ eN ("READ/RECV")).2.map Rendered.lost) =
      some (some (eN.len - MAX_BUF_SIZE)) := by
  have he : (probe_SSL_read_exit none ctx0 9 (-2) stA).emitted = some eN := rfl
  have h := C10_negative_ret_reinterpreted none ctx0 9 (-2) stA 100
    [104, 101, 108, 108, 111] "READ/RECV" (by decide) (by decide) (by decide)
    (by decide) rfl
  have h3 := h.2.2 eN he
  exact ⟨he, h.2.1, h3.1, h3.2.1, h3.2.2.2 ⟨0⟩⟩

end Sslsniff
